import Mathlib

/-
Shallow embedding of the icon-extraction pipeline of
website-icon-extract-rust (src/src/lib.rs).

The markup scanner (analyze_content, check_start_elem, extract,
attr_to_hash) is embedded over the stream of quick_xml events: the
external XML tokenizer is modelled by an explicit event list, where an
element event carries its local name (as written, no case folding,
exactly what e.name().local_name() yields) and its list of decoded
attribute key/value pairs in document order (attribute entries whose
parse or decode failed are dropped by the source before hashing, so the
model receives only the surviving decoded pairs).

The effectful pipeline (from_website, analyze_location, get_pixel_size,
ImageLink.new) is embedded by passing the external collaborators (the
parse/join functions of the url crate, the reqwest HTTP client, the
sniffers of the imagesize crate) as an explicit environment of oracle
functions.  A companion function from_website_requests computes, from
the same control flow, the list of HTTP requests the pipeline issues,
so that claims about which requests are (not) sent become statable.
-/

namespace WebsiteIconExtract

/-- Models the Rust str::to_lowercase calls of the scanner: per-char
lowercasing.  All keys and keyword values at issue are ASCII, where the
two functions agree.  (Defined on the character list so it evaluates in
the kernel.) -/
def lowercase (s : String) : String := ⟨s.data.map Char.toLower⟩

/-- Models Rust str::starts_with: prefix test on the character
sequence. -/
def starts_with (s p : String) : Bool := p.data.isPrefixOf s.data

/-- Image container formats detected by the external imagesize crate
(closed enum; the pipeline only transports the value). -/
inductive ImageType where
  | bmp
  | gif
  | heif
  | ico
  | jpeg
  | png
  | psd
  | tga
  | tiff
  | webp
deriving DecidableEq, Repr

/-- Pixel dimensions returned by the external imagesize::blob_size. -/
structure ImageSize where
  width : Nat
  height : Nat
deriving DecidableEq, Repr

/-- Absolute URLs are opaque to the pipeline; the url crate that builds
them is an external collaborator, so they are modelled as strings. -/
abbrev Url := String

/-- Holds information about an image (the ImageLink struct). -/
structure ImageLink where
  url : Url
  image_type : ImageType
  width : Nat
  height : Nat
deriving DecidableEq, Repr

/-- One quick_xml reader event, as consumed by analyze_content.
Start/Empty carry the local name of the element as written and its
decoded attribute pairs in document order. -/
inductive Event where
  | Start (name : String) (attrs : List (String × String))
  | Empty (name : String) (attrs : List (String × String))
  | End
  | Text (s : String)
  | Eof
  | Err (msg : String)
deriving DecidableEq, Repr

/-- attr_to_hash (lib.rs:186-203): lowercase every attribute key, keep
the value as decoded.  The source collects the pairs into a HashMap,
where a later pair with the same (lowercased) key overwrites an earlier
one; the model keeps the ordered list and pairs it with the last-wins
lookup hashGet. -/
def attr_to_hash (attrs : List (String × String)) : List (String × String) :=
  attrs.map (fun p => (lowercase p.1, p.2))

/-- Lookup in the attribute hash built by attr_to_hash: the last pair
with the given key wins, matching HashMap collect overwrite
semantics. -/
def hashGet (h : List (String × String)) (k : String) : Option String :=
  (h.reverse.find? (fun p => p.1 == k)).map (fun p => p.2)

/-- extract (lib.rs:205-224): look up the selector attribute (key_name)
and the payload attribute (content); lowercase both; if the lowercased
selector value is exactly contained in names, emit the lowercased
payload value.  Note the source pushes the lowercased payload, not the
original. -/
def extract (attrs_hashed : List (String × String)) (names : List String)
    (key_name : String) (content : String) : List String :=
  match hashGet attrs_hashed key_name, hashGet attrs_hashed content with
  | some name, some contentVal =>
    if names.contains (lowercase name) then [lowercase contentVal] else []
  | _, _ => []

/-- The meta_name_attrs keyword list of check_start_elem
(lib.rs:231-237), verbatim, mixed case included. -/
def meta_name_attrs : List String :=
  ["msapplication-TileImage",
   "msapplication-square70x70logo",
   "msapplication-square150x150logo",
   "msapplication-square310x310logo",
   "msapplication-wide310x150logo"]

/-- The meta_property_attrs keyword list of check_start_elem. -/
def meta_property_attrs : List String := ["og:image"]

/-- The link_rel_attrs keyword list of check_start_elem. -/
def link_rel_attrs : List String := ["apple-touch-icon", "shortcut icon", "icon"]

/-- check_start_elem (lib.rs:227-263): match the local name of the
element byte-exactly against meta and link and extract candidates from
the hashed attributes. -/
def check_start_elem (name : String) (attrs : List (String × String)) : List String :=
  if name == "meta" then
    let attrs_hashed := attr_to_hash attrs
    extract attrs_hashed meta_name_attrs "name" "content" ++
      extract attrs_hashed meta_property_attrs "property" "content"
  else if name == "link" then
    let attrs_hashed := attr_to_hash attrs
    extract attrs_hashed link_rel_attrs "rel" "href"
  else
    []

/-- The per-event step of the analyze_content loop (lib.rs:120-138):
Start and Empty events are inspected, everything else (end tags, text,
tokenizer errors, which are printed and skipped) contributes
nothing. -/
def check_event (e : Event) : List String :=
  match e with
  | .Start name attrs => check_start_elem name attrs
  | .Empty name attrs => check_start_elem name attrs
  | _ => []

/-- analyze_content (lib.rs:113-140): fold over the event stream,
extending the candidate list at each start/empty element. -/
def analyze_content (evs : List Event) : List String :=
  evs.foldl (fun list e => list ++ check_event e) []

/-- An HTTP request as built by the pipeline: target URL, optional
Range header value, User-Agent header, and per-request timeout in
seconds. -/
structure HttpRequest where
  url : Url
  range : Option String
  userAgent : String
  timeoutSecs : Nat
deriving DecidableEq, Repr

/-- The request built by from_website for the initial page fetch
(lib.rs:96-100): timeout and user agent, no Range header. -/
def page_request (u : Url) (ua : String) (t : Nat) : HttpRequest :=
  { url := u, range := none, userAgent := ua, timeoutSecs := t }

/-- The request built by get_pixel_size for an image probe
(lib.rs:150-155): timeout, user agent, and the header
Range: bytes=0-99. -/
def probe_request (u : Url) (ua : String) (t : Nat) : HttpRequest :=
  { url := u, range := some "bytes=0-99", userAgent := ua, timeoutSecs := t }

/-- A reqwest response as consumed by the pipeline.  content_type
models headers().get(CONTENT_TYPE): none when the header is absent,
some none when present but not convertible to a string by to_str (the
source then falls back to the empty string via unwrap_or), and
some (some ct) otherwise.  text is the decoded body already tokenized
into quick_xml events (response.text() can fail, hence Except); bytes
is the raw body used by image probes (response.bytes() can fail
too). -/
structure Response where
  content_type : Option (Option String)
  text : Except String (List Event)
  bytes : Except String (List Nat)

/-- Pipeline-level errors of from_website: URL parse failure, page
fetch failure, body read failure (all boxed dyn Error in the
source). -/
inductive PipeErr where
  | InvalidUrl
  | FetchError (msg : String)
  | TextError (msg : String)
deriving DecidableEq, Repr

/-- The external collaborators of the pipeline: Url::parse and
Url::join of the url crate (none models a parse/join error), the HTTP
transport, and the sniffers of the imagesize crate. -/
structure Env where
  parseUrl : String → Option Url
  join : Url → String → Option Url
  http : HttpRequest → Except String Response
  blob_size : List Nat → Except String ImageSize
  image_type : List Nat → Except String ImageType

/-- analyze_location (lib.rs:174-184): only when a Content-Type header
is present and its string value starts with text/html is the body read
and scanned; otherwise the empty candidate list is returned without
touching the body. -/
def analyze_location (resp : Response) : Except PipeErr (List String) :=
  match resp.content_type with
  | some hv =>
    if starts_with (hv.getD "") "text/html" then
      match resp.text with
      | .error e => .error (.TextError e)
      | .ok content => .ok (analyze_content content)
    else
      .ok []
  | none => .ok []

/-- get_pixel_size (lib.rs:144-168): issue the range-limited probe
request, read the body bytes, and run both sniffers on them. -/
def get_pixel_size (env : Env) (url : Url) (ua : String) (t : Nat) :
    Except String (ImageSize × ImageType) :=
  match env.http (probe_request url ua t) with
  | .error e => .error e
  | .ok resp =>
    match resp.bytes with
    | .error e => .error e
    | .ok data =>
      match env.blob_size data with
      | .error e => .error e
      | .ok pixel_size =>
        match env.image_type data with
        | .error e => .error e
        | .ok ty => .ok (pixel_size, ty)

/-- ImageLink::new (lib.rs:57-70): probe the URL and package the
result. -/
def ImageLink.new (env : Env) (url : Url) (ua : String) (t : Nat) :
    Except String ImageLink :=
  match get_pixel_size env url ua t with
  | .error e => .error e
  | .ok (sz, ty) =>
    .ok { url := url, image_type := ty, width := sz.width, height := sz.height }

/-- ImageLink::from_website (lib.rs:86-109): parse the base URL, fetch
the page, scan it, append /favicon.ico, join every candidate against
the base (dropping join failures), probe each joined URL (dropping
probe failures), and collect the survivors. -/
def ImageLink.from_website (env : Env) (base_url : String) (ua : String) (t : Nat) :
    Except PipeErr (List ImageLink) :=
  match env.parseUrl base_url with
  | none => .error .InvalidUrl
  | some u =>
    match env.http (page_request u ua t) with
    | .error e => .error (.FetchError e)
    | .ok response =>
      match analyze_location response with
      | .error e => .error e
      | .ok list =>
        .ok (((list ++ ["/favicon.ico"]).filterMap (fun s => env.join u s)).filterMap
          (fun image_url => (ImageLink.new env image_url ua t).toOption))

/-- The HTTP requests ImageLink.from_website issues, in order, derived
from the same control flow: nothing when the base URL fails to parse;
the page request alone when the page fetch or the body read fails;
otherwise the page request followed by one probe request per
successfully joined candidate (ImageLink::new sends its request before
any of its fallible sniffing steps, so every joined candidate costs
exactly one probe request, whether or not sniffing succeeds). -/
def from_website_requests (env : Env) (base_url : String) (ua : String) (t : Nat) :
    List HttpRequest :=
  match env.parseUrl base_url with
  | none => []
  | some u =>
    page_request u ua t ::
      (match env.http (page_request u ua t) with
      | .error _ => []
      | .ok response =>
        match analyze_location response with
        | .error _ => []
        | .ok list =>
          ((list ++ ["/favicon.ico"]).filterMap (fun s => env.join u s)).map
            (fun image_url => probe_request image_url ua t))

/-- A fixed html page response containing two link elements whose
candidates both resolve (under envDup.join) to the same absolute
URL. -/
def pageRespDup : Response :=
  { content_type := some (some "text/html; charset=utf-8"),
    text := .ok
      [Event.Start "html" [],
       Event.Empty "link" [("rel", "icon"), ("href", "/x.png")],
       Event.Empty "link" [("rel", "shortcut icon"), ("href", "x.png")],
       Event.End],
    bytes := .error "page body consumed as text" }

/-- A fixed successful image probe response. -/
def imgResp : Response :=
  { content_type := some (some "image/x-icon"),
    text := .error "image body is not text",
    bytes := .ok [0, 0, 1, 0] }

/-- Environment in which two distinct link elements resolve to the
same absolute URL and every probe succeeds as a 16x16 ICO. -/
def envDup : Env :=
  { parseUrl := fun s => if s == "http://e/" then some "http://e/" else none,
    join := fun _ c =>
      if c == "/x.png" || c == "x.png" then some "http://e/x.png" else none,
    http := fun r => if r.range.isNone then .ok pageRespDup else .ok imgResp,
    blob_size := fun _ => .ok ⟨16, 16⟩,
    image_type := fun _ => .ok .ico }

/-- Environment whose URL parser rejects every input. -/
def envNone : Env :=
  { parseUrl := fun _ => none,
    join := fun _ _ => none,
    http := fun _ => .error "no request is issued",
    blob_size := fun _ => .error "no request is issued",
    image_type := fun _ => .error "no request is issued" }

/-- Environment whose HTTP transport refuses every connection. -/
def envRefused : Env :=
  { parseUrl := fun s => if s == "http://e/" then some "http://e/" else none,
    join := fun _ _ => none,
    http := fun _ => .error "connection refused",
    blob_size := fun _ => .error "unreachable",
    image_type := fun _ => .error "unreachable" }

/-- A fixed html page response with one reachable and one broken icon
candidate. -/
def pageRespMixed : Response :=
  { content_type := some (some "text/html"),
    text := .ok
      [Event.Empty "link" [("rel", "icon"), ("href", "/good.png")],
       Event.Empty "link" [("rel", "apple-touch-icon"), ("href", "/bad.png")]],
    bytes := .error "page body consumed as text" }

/-- A probe response whose body read fails (models a connection reset
while downloading the image prefix). -/
def brokenResp : Response :=
  { content_type := some (some "text/plain"),
    text := .error "image body is not text",
    bytes := .error "connection reset while reading body" }

/-- Environment in which the probe of /bad.png fails while the probe
of /good.png succeeds, and /favicon.ico fails to join. -/
def envMixed : Env :=
  { parseUrl := fun s => if s == "http://e/" then some "http://e/" else none,
    join := fun _ c =>
      if c == "/good.png" then some "http://e/good.png"
      else if c == "/bad.png" then some "http://e/bad.png"
      else none,
    http := fun r =>
      if r.range.isNone then .ok pageRespMixed
      else if r.url == "http://e/bad.png" then .ok brokenResp
      else .ok imgResp,
    blob_size := fun _ => .ok ⟨16, 16⟩,
    image_type := fun _ => .ok .ico }

/-- A page response carrying Content-Type application/json whose body
reads fail, witnessing that the body is never touched for non-html
content. -/
def jsonResp : Response :=
  { content_type := some (some "application/json"),
    text := .error "body never read as text",
    bytes := .error "body never read as bytes" }

/-- Environment serving a JSON page; only /favicon.ico joins. -/
def envJson : Env :=
  { parseUrl := fun s => if s == "http://e/" then some "http://e/" else none,
    join := fun _ c => if c == "/favicon.ico" then some "http://e/favicon.ico" else none,
    http := fun r => if r.range.isNone then .ok jsonResp else .ok imgResp,
    blob_size := fun _ => .ok ⟨32, 32⟩,
    image_type := fun _ => .ok .ico }

/-- A page response with no Content-Type header at all; its body reads
fail, witnessing that the body is never touched. -/
def noCTResp : Response :=
  { content_type := none,
    text := .error "body never read as text",
    bytes := .error "body never read as bytes" }

/-- Environment serving a page without a Content-Type header; only
/favicon.ico joins. -/
def envNoCT : Env :=
  { parseUrl := fun s => if s == "http://e/" then some "http://e/" else none,
    join := fun _ c => if c == "/favicon.ico" then some "http://e/favicon.ico" else none,
    http := fun r => if r.range.isNone then .ok noCTResp else .ok imgResp,
    blob_size := fun _ => .ok ⟨32, 32⟩,
    image_type := fun _ => .ok .ico }

/-- Folding the analyze_content step from an arbitrary accumulator
prepends the accumulator. -/
theorem analyze_content_foldl_acc (evs : List Event) (acc : List String) :
    evs.foldl (fun list e => list ++ check_event e) acc = acc ++ analyze_content evs := by
  induction evs generalizing acc with
  | nil => simp [analyze_content]
  | cons e evs ih =>
    simp only [analyze_content, List.foldl_cons, List.nil_append]
    rw [ih, ih (check_event e), List.append_assoc]

/-- analyze_content distributes over event-stream concatenation. -/
theorem analyze_content_append (a b : List Event) :
    analyze_content (a ++ b) = analyze_content a ++ analyze_content b := by
  simp only [analyze_content, List.foldl_append]
  rw [analyze_content_foldl_acc b (List.foldl (fun list e => list ++ check_event e) [] a)]
  rfl

/-- analyze_content on a cons is the head contribution followed by the
rest. -/
theorem analyze_content_cons (e : Event) (evs : List Event) :
    analyze_content (e :: evs) = check_event e ++ analyze_content evs := by
  simp only [analyze_content, List.foldl_cons, List.nil_append]
  rw [analyze_content_foldl_acc evs (check_event e)]
  rfl

/-- On a link element, check_start_elem reduces to the rel/href
extraction. -/
theorem check_start_elem_link (attrs : List (String × String)) :
    check_start_elem "link" attrs = extract (attr_to_hash attrs) link_rel_attrs "rel" "href" :=
  rfl

/-- On a meta element, check_start_elem reduces to the name/content and
property/content extractions. -/
theorem check_start_elem_meta (attrs : List (String × String)) :
    check_start_elem "meta" attrs =
      extract (attr_to_hash attrs) meta_name_attrs "name" "content" ++
        extract (attr_to_hash attrs) meta_property_attrs "property" "content" :=
  rfl

/-- extract emits exactly the lowercased payload when both attributes
are present and the lowercased selector is in the keyword list. -/
theorem extract_eq_of (h : List (String × String)) (names : List String)
    (k c name contentVal : String)
    (hk : hashGet h k = some name) (hc : hashGet h c = some contentVal)
    (hmem : names.contains (lowercase name) = true) :
    extract h names k c = [lowercase contentVal] := by
  unfold extract
  rw [hk, hc]
  simp only [hmem, if_true]

/-- A successful ImageLink.new returns a record whose url field is the
probed URL. -/
theorem ImageLink.new_url_eq (env : Env) (v : Url) (ua : String) (t : Nat) (il : ImageLink)
    (h : ImageLink.new env v ua t = .ok il) : il.url = v := by
  unfold ImageLink.new at h
  cases hg : get_pixel_size env v ua t with
  | error e => rw [hg] at h; exact absurd h (by simp)
  | ok p =>
    rw [hg] at h
    obtain ⟨sz, ty⟩ := p
    simp only [Except.ok.injEq] at h
    rw [← h]

/-- Once the page is fetched and scanned, from_website returns the
collected probe successes of the joined candidates. -/
theorem from_website_ok_of_page_ok (env : Env) (s ua : String) (t : Nat)
    (u : Url) (resp : Response) (cands : List String)
    (hp : env.parseUrl s = some u)
    (hf : env.http (page_request u ua t) = .ok resp)
    (ha : analyze_location resp = .ok cands) :
    ImageLink.from_website env s ua t =
      .ok (((cands ++ ["/favicon.ico"]).filterMap (fun c => env.join u c)).filterMap
        (fun v => (ImageLink.new env v ua t).toOption)) := by
  simp only [ImageLink.from_website, hp, hf, ha]

/-- The page request differs from every probe request (no Range header
versus Range bytes=0-99). -/
theorem page_request_ne_probe_request (u v : Url) (ua ua2 : String) (t t2 : Nat) :
    page_request u ua t ≠ probe_request v ua2 t2 := by
  simp [page_request, probe_request]

/-- Counting a probe request in a mapped probe list counts the
underlying URL. -/
theorem count_map_probe_request (l : List Url) (v : Url) (ua : String) (t : Nat) :
    (l.map (fun w => probe_request w ua t)).count (probe_request v ua t) = l.count v := by
  induction l with
  | nil => rfl
  | cons a l ih =>
    simp only [List.map_cons, List.count_cons, ih]
    by_cases hav : a = v
    · simp [hav]
    · simp [hav, probe_request, HttpRequest.mk.injEq]

/-- C1 (counterexample): the claim that the emitted candidate preserves
the original casing of the href value fails: for the single link
element with rel icon and href /A.PNG the scanner emits /a.png, and
/A.PNG itself is not emitted (extract pushes the lowercased value,
lib.rs:217-219). -/
theorem scanner_lowercases_href_counterexample :
    analyze_content [Event.Empty "link" [("rel", "icon"), ("href", "/A.PNG")]] = ["/a.png"] ∧
    "/A.PNG" ∉ analyze_content [Event.Empty "link" [("rel", "icon"), ("href", "/A.PNG")]] := by
  decide

/-- C1 (amended): for every event stream containing a link element
(start or self-closing) whose hashed attributes map rel to a value
matching icon case-insensitively and href to X, the scanner emits the
lowercase of X as a candidate, regardless of surrounding events or of
attribute ordering (the hashed lookup abstracts the order). -/
theorem scanner_emits_lowercased_link_href
    (pre post : List Event) (e : Event) (attrs : List (String × String)) (X r : String)
    (he : e = Event.Start "link" attrs ∨ e = Event.Empty "link" attrs)
    (hrel : hashGet (attr_to_hash attrs) "rel" = some r)
    (hicon : lowercase r = "icon")
    (hhref : hashGet (attr_to_hash attrs) "href" = some X) :
    lowercase X ∈ analyze_content (pre ++ e :: post) := by
  have hce : check_event e = check_start_elem "link" attrs := by
    rcases he with h | h <;> rw [h] <;> rfl
  have hcs : check_start_elem "link" attrs = [lowercase X] := by
    rw [check_start_elem_link,
      extract_eq_of (attr_to_hash attrs) link_rel_attrs "rel" "href" r X hrel hhref
        (by rw [hicon]; decide)]
  rw [analyze_content_append, analyze_content_cons, hce, hcs]
  simp

/-- C1 (witness): concrete instance with surrounding text and end
events, attribute order href before rel, uppercase attribute names and
rel value; the lowercased href is emitted. -/
theorem scanner_emits_lowercased_link_href_witness :
    lowercase "/Icons/A.PNG" ∈ analyze_content
      [Event.Text "x", Event.Empty "link" [("HREF", "/Icons/A.PNG"), ("REL", "ICON")],
       Event.End] :=
  scanner_emits_lowercased_link_href [Event.Text "x"] [Event.End]
    (Event.Empty "link" [("HREF", "/Icons/A.PNG"), ("REL", "ICON")])
    [("HREF", "/Icons/A.PNG"), ("REL", "ICON")] "/Icons/A.PNG" "ICON"
    (Or.inr rfl) (by decide) (by decide) (by decide)

/-- C2 (counterexample): in envDup two distinct link elements resolve
to the same absolute URL http://e/x.png, yet the pipeline issues two
probe requests for that URL and returns two ImageLink records for it:
no deduplication happens before the fan-out (lib.rs:102-108 has no
dedup step). -/
theorem no_dedup_counterexample :
    (from_website_requests envDup "http://e/" "UA" 5).count
        (probe_request "http://e/x.png" "UA" 5) = 2 ∧
    ImageLink.from_website envDup "http://e/" "UA" 5 =
      .ok [⟨"http://e/x.png", .ico, 16, 16⟩, ⟨"http://e/x.png", .ico, 16, 16⟩] :=
  ⟨rfl, rfl⟩

/-- C2 (amended): the working set before the probe fan-out keeps
duplicates: for every resolved URL v, the number of probe requests
issued for v equals the multiplicity of v among the joined candidates,
so k distinct markup elements resolving to the same URL yield k probes
(and up to k ImageLink records), not one. -/
theorem one_probe_per_joined_occurrence (env : Env) (s ua : String) (t : Nat)
    (u : Url) (resp : Response) (cands : List String)
    (hp : env.parseUrl s = some u)
    (hf : env.http (page_request u ua t) = .ok resp)
    (ha : analyze_location resp = .ok cands) :
    ∀ v : Url,
      (from_website_requests env s ua t).count (probe_request v ua t) =
        ((cands ++ ["/favicon.ico"]).filterMap (fun c => env.join u c)).count v := by
  intro v
  simp only [from_website_requests, hp, hf, ha]
  rw [List.count_cons_of_ne (Ne.symm (page_request_ne_probe_request u v ua ua t t)),
    count_map_probe_request]

/-- C2 (witness): the amended statement instantiated in envDup at the
doubly-resolved URL http://e/x.png, where the scanned candidates are
/x.png and x.png. -/
theorem one_probe_per_joined_occurrence_witness :
    (from_website_requests envDup "http://e/" "UA" 5).count
        (probe_request "http://e/x.png" "UA" 5) =
      ((["/x.png", "x.png"] ++ ["/favicon.ico"]).filterMap
        (fun c => envDup.join "http://e/" c)).count "http://e/x.png" :=
  one_probe_per_joined_occurrence envDup "http://e/" "UA" 5 "http://e/" pageRespDup
    ["/x.png", "x.png"] rfl rfl rfl "http://e/x.png"

/-- C3 (code bug evaluation): a meta element whose name attribute is
exactly msapplication-TileImage yields no candidate, because extract
lowercases the attribute value and then compares it for exact equality
against the mixed-case list entry msapplication-TileImage
(lib.rs:216-218 with lib.rs:232), which therefore never matches; the
sibling all-lowercase keywords and og:image do work, as the second and
third conjuncts show. -/
theorem tileimage_meta_never_matches :
    analyze_content [Event.Empty "meta"
        [("name", "msapplication-TileImage"), ("content", "/tile.png")]] = [] ∧
    analyze_content [Event.Empty "meta"
        [("name", "msapplication-square70x70logo"), ("content", "/sq.png")]] = ["/sq.png"] ∧
    analyze_content [Event.Empty "meta"
        [("property", "og:image"), ("content", "/og.png")]] = ["/og.png"] := by
  decide

/-- C4 (counterexample): the inputs LINK REL=ICON HREF=/a.png (element
name uppercase) and link rel=icon href=/a.png do not yield identical
candidate lists: the element name is matched byte-exactly against link
(lib.rs:246,254), so the uppercase element yields nothing. -/
theorem uppercase_element_name_counterexample :
    analyze_content [Event.Empty "LINK" [("REL", "ICON"), ("HREF", "/a.png")]] = [] ∧
    analyze_content [Event.Empty "link" [("rel", "icon"), ("href", "/a.png")]] = ["/a.png"] := by
  decide

/-- C4 (amended): matching is case-insensitive on attribute names and
on the matched keyword values but case-sensitive on element names: for
every href value V, link REL=ICON HREF=V and link rel=icon href=V emit
identical candidate lists, while the uppercase element LINK emits
none. -/
theorem attr_case_insensitive_elem_case_sensitive (V : String) :
    analyze_content [Event.Empty "link" [("REL", "ICON"), ("HREF", V)]] =
      analyze_content [Event.Empty "link" [("rel", "icon"), ("href", V)]] ∧
    analyze_content [Event.Empty "LINK" [("REL", "ICON"), ("HREF", V)]] = [] :=
  ⟨rfl, rfl⟩

/-- C5: when the base URL does not parse, from_website fails
immediately with InvalidUrl and issues no HTTP request of any kind. -/
theorem from_website_invalid_url (env : Env) (s ua : String) (t : Nat)
    (h : env.parseUrl s = none) :
    ImageLink.from_website env s ua t = .error .InvalidUrl ∧
    from_website_requests env s ua t = [] := by
  constructor <;> simp only [ImageLink.from_website, from_website_requests, h]

/-- C5 (witness): in envNone, whose parser rejects everything, the
input fails fast and the request trace is empty. -/
theorem from_website_invalid_url_witness :
    ImageLink.from_website envNone "not a url" "UA" 5 = .error .InvalidUrl ∧
    from_website_requests envNone "not a url" "UA" 5 = [] :=
  from_website_invalid_url envNone "not a url" "UA" 5 rfl

/-- C6: when the initial page fetch fails, from_website returns a
fetch error with no partial result, and the only request ever issued
is the page request itself: no probe is attempted. -/
theorem from_website_page_fetch_error (env : Env) (s ua : String) (t : Nat)
    (u : Url) (msg : String)
    (hp : env.parseUrl s = some u)
    (hf : env.http (page_request u ua t) = .error msg) :
    ImageLink.from_website env s ua t = .error (.FetchError msg) ∧
    from_website_requests env s ua t = [page_request u ua t] := by
  constructor <;> simp only [ImageLink.from_website, from_website_requests, hp, hf]

/-- C6 (witness): in envRefused the transport refuses the connection;
the pipeline surfaces the error and the trace holds only the page
request. -/
theorem from_website_page_fetch_error_witness :
    ImageLink.from_website envRefused "http://e/" "UA" 5 =
      .error (.FetchError "connection refused") ∧
    from_website_requests envRefused "http://e/" "UA" 5 =
      [page_request "http://e/" "UA" 5] :=
  from_website_page_fetch_error envRefused "http://e/" "UA" 5 "http://e/"
    "connection refused" rfl rfl

/-- C7: once the page is fetched and scanned, from_website always
returns an Ok list: every candidate whose join and probe succeed
contributes its ImageLink, and every joined candidate whose probe
fails is silently excluded (nothing in the result carries its URL);
per-candidate failures never surface as pipeline errors. -/
theorem from_website_swallows_candidate_failures (env : Env) (s ua : String) (t : Nat)
    (u : Url) (resp : Response) (cands : List String)
    (hp : env.parseUrl s = some u)
    (hf : env.http (page_request u ua t) = .ok resp)
    (ha : analyze_location resp = .ok cands) :
    ∃ l, ImageLink.from_website env s ua t = .ok l ∧
      (∀ c ∈ cands ++ ["/favicon.ico"], ∀ v, env.join u c = some v →
        ∀ il, ImageLink.new env v ua t = .ok il → il ∈ l) ∧
      (∀ v ∈ (cands ++ ["/favicon.ico"]).filterMap (fun c => env.join u c),
        (ImageLink.new env v ua t).isOk = false → ∀ il ∈ l, il.url ≠ v) := by
  refine ⟨_, from_website_ok_of_page_ok env s ua t u resp cands hp hf ha, ?_, ?_⟩
  · intro c hc v hv il hil
    refine List.mem_filterMap.mpr ⟨v, List.mem_filterMap.mpr ⟨c, hc, hv⟩, ?_⟩
    rw [hil]; rfl
  · intro v hv hfail il hil hurl
    obtain ⟨w, hw, hok⟩ := List.mem_filterMap.mp hil
    cases hnew : ImageLink.new env w ua t with
    | error e => rw [hnew] at hok; exact absurd hok (by simp [Except.toOption])
    | ok il2 =>
      rw [hnew] at hok
      simp only [Except.toOption, Option.some.injEq] at hok
      have hwv : w = v := by
        rw [← hurl, ← ImageLink.new_url_eq env w ua t il2 hnew, hok]
      rw [← hwv, hnew] at hfail
      have : (true : Bool) = false :=
        (show (Except.ok il2 : Except String ImageLink).isOk = true from rfl) ▸ hfail
      exact Bool.noConfusion this

/-- C7 (witness): in envMixed the page scan yields /good.png and
/bad.png; the probe of /bad.png fails while /good.png succeeds, and
the pipeline still returns Ok. -/
theorem from_website_swallows_candidate_failures_witness :
    ∃ l, ImageLink.from_website envMixed "http://e/" "UA" 5 = .ok l ∧
      (∀ c ∈ ["/good.png", "/bad.png"] ++ ["/favicon.ico"], ∀ v,
        envMixed.join "http://e/" c = some v →
        ∀ il, ImageLink.new envMixed v "UA" 5 = .ok il → il ∈ l) ∧
      (∀ v ∈ (["/good.png", "/bad.png"] ++ ["/favicon.ico"]).filterMap
          (fun c => envMixed.join "http://e/" c),
        (ImageLink.new envMixed v "UA" 5).isOk = false → ∀ il ∈ l, il.url ≠ v) :=
  from_website_swallows_candidate_failures envMixed "http://e/" "UA" 5 "http://e/"
    pageRespMixed ["/good.png", "/bad.png"] rfl rfl rfl

/-- In envMixed the final result contains exactly the one reachable
icon: the broken candidate was dropped, the unjoinable favicon was
dropped, and no error surfaced. -/
theorem envMixed_result_concrete :
    ImageLink.from_website envMixed "http://e/" "UA" 5 =
      .ok [⟨"http://e/good.png", .ico, 16, 16⟩] :=
  rfl

/-- C8: when the page response carries a Content-Type that does not
start with text/html, no scanning happens (the empty candidate list is
returned without reading the body) and yet the /favicon.ico fallback
is still appended and, when it joins, probed. -/
theorem non_html_no_scan_still_favicon (env : Env) (s ua : String) (t : Nat)
    (u : Url) (resp : Response) (ct : String)
    (hp : env.parseUrl s = some u)
    (hf : env.http (page_request u ua t) = .ok resp)
    (hct : resp.content_type = some (some ct))
    (hnh : starts_with ct "text/html" = false) :
    analyze_location resp = .ok [] ∧
    from_website_requests env s ua t =
      page_request u ua t ::
        (["/favicon.ico"].filterMap (fun c => env.join u c)).map
          (fun v => probe_request v ua t) ∧
    ∀ f, env.join u "/favicon.ico" = some f →
      probe_request f ua t ∈ from_website_requests env s ua t := by
  have hal : analyze_location resp = .ok [] := by
    unfold analyze_location
    rw [hct]
    simp only [Option.getD_some, hnh, Bool.false_eq_true, if_false]
  refine ⟨hal, by simp only [from_website_requests, hp, hf, hal, List.nil_append], ?_⟩
  intro f hfav
  simp only [from_website_requests, hp, hf, hal, List.nil_append, List.filterMap, hfav,
    List.map_cons, List.map_nil]
  simp

/-- C8 (witness): envJson serves application/json; its body reads fail
outright, so the empty scan result also certifies the body was never
read, and the favicon probe request is in the trace. -/
theorem non_html_no_scan_still_favicon_witness :
    analyze_location jsonResp = .ok [] ∧
    from_website_requests envJson "http://e/" "UA" 5 =
      page_request "http://e/" "UA" 5 ::
        (["/favicon.ico"].filterMap (fun c => envJson.join "http://e/" c)).map
          (fun v => probe_request v "UA" 5) ∧
    ∀ f, envJson.join "http://e/" "/favicon.ico" = some f →
      probe_request f "UA" 5 ∈ from_website_requests envJson "http://e/" "UA" 5 :=
  non_html_no_scan_still_favicon envJson "http://e/" "UA" 5 "http://e/" jsonResp
    "application/json" rfl rfl rfl rfl

/-- C9: in every run, the request trace starts with the page request,
which carries no Range header and the given timeout, and every later
request (the image probes of get_pixel_size) carries the header
Range: bytes=0-99 and the same timeout bound. -/
theorem probe_range_and_timeout (env : Env) (s ua : String) (t : Nat) (u : Url)
    (hp : env.parseUrl s = some u) :
    ∃ rest, from_website_requests env s ua t = page_request u ua t :: rest ∧
      (page_request u ua t).range = none ∧ (page_request u ua t).timeoutSecs = t ∧
      ∀ r ∈ rest, r.range = some "bytes=0-99" ∧ r.timeoutSecs = t := by
  cases h1 : env.http (page_request u ua t) with
  | error e =>
    exact ⟨[], by simp only [from_website_requests, hp, h1], rfl, rfl, by simp⟩
  | ok resp =>
    cases h2 : analyze_location resp with
    | error e =>
      exact ⟨[], by simp only [from_website_requests, hp, h1, h2], rfl, rfl, by simp⟩
    | ok list =>
      refine ⟨((list ++ ["/favicon.ico"]).filterMap (fun c => env.join u c)).map
          (fun v => probe_request v ua t),
        by simp only [from_website_requests, hp, h1, h2], rfl, rfl, ?_⟩
      intro r hr
      obtain ⟨v, hv, hmap⟩ := List.mem_map.mp hr
      rw [← hmap]
      exact ⟨rfl, rfl⟩

/-- C9 (witness): the request-shape property instantiated in envJson,
where the trace is the page request followed by the favicon probe. -/
theorem probe_range_and_timeout_witness :
    ∃ rest, from_website_requests envJson "http://e/" "UA" 5 =
        page_request "http://e/" "UA" 5 :: rest ∧
      (page_request "http://e/" "UA" 5).range = none ∧
      (page_request "http://e/" "UA" 5).timeoutSecs = 5 ∧
      ∀ r ∈ rest, r.range = some "bytes=0-99" ∧ r.timeoutSecs = 5 :=
  probe_range_and_timeout envJson "http://e/" "UA" 5 "http://e/" rfl

/-- C10: when the page response has no Content-Type header at all, or
the header value is not convertible to a string, analyze_location
returns the empty candidate list without reading the body, and the
only probe candidate left is the appended /favicon.ico fallback. -/
theorem no_content_type_skips_scan (env : Env) (s ua : String) (t : Nat)
    (u : Url) (resp : Response)
    (hp : env.parseUrl s = some u)
    (hf : env.http (page_request u ua t) = .ok resp)
    (hct : resp.content_type = none ∨ resp.content_type = some none) :
    analyze_location resp = .ok [] ∧
    from_website_requests env s ua t =
      page_request u ua t ::
        (["/favicon.ico"].filterMap (fun c => env.join u c)).map
          (fun v => probe_request v ua t) := by
  have hal : analyze_location resp = .ok [] := by
    rcases hct with h | h
    · unfold analyze_location; rw [h]
    · unfold analyze_location; rw [h]; exact rfl
  exact ⟨hal, by simp only [from_website_requests, hp, hf, hal, List.nil_append]⟩

/-- C10 (witness): envNoCT serves a response with no Content-Type
header and unreadable body; no scan occurs and the trace is the page
request plus the favicon probe. -/
theorem no_content_type_skips_scan_witness :
    analyze_location noCTResp = .ok [] ∧
    from_website_requests envNoCT "http://e/" "UA" 5 =
      page_request "http://e/" "UA" 5 ::
        (["/favicon.ico"].filterMap (fun c => envNoCT.join "http://e/" c)).map
          (fun v => probe_request v "UA" 5) :=
  no_content_type_skips_scan envNoCT "http://e/" "UA" 5 "http://e/" noCTResp rfl rfl
    (Or.inl rfl)

end WebsiteIconExtract
